import Mathlib

/-!
Verification of the sport course-selling platform (tRPC routers over a
Prisma schema).  The definitions below are a shallow embedding of the
routers relevant to the claims: the coupon routers (validate, calculate
discount, apply), the student router (enroll, lesson progress), the admin
course router (updateCourse, publishCourse) and the admin category router
(deleteCategory).  Database tables are modelled as lists of records and
each tRPC procedure as a function from a database state (plus its inputs
and the current time) to a typed error or a result, together with the
database state after the call.
-/

namespace Sport

/-- Error codes of TRPCError as thrown by the routers. -/
inductive ErrCode
  | NOT_FOUND
  | BAD_REQUEST
  | CONFLICT
  | FORBIDDEN
  | UNAUTHORIZED
  | INTERNAL_SERVER_ERROR
  deriving DecidableEq, Repr

/-- Coupon.discountType enum. -/
inductive DiscountType
  | PERCENTAGE
  | FIXED_AMOUNT
  deriving DecidableEq, Repr

/-- Enrollment.status enum. -/
inductive EnrollmentStatus
  | ACTIVE
  | EXPIRED
  | REFUNDED
  deriving DecidableEq, Repr

/-- A row of the Coupon table.  Money and percentages are rationals
(Prisma Decimal / JS number); dates are integer timestamps; nullable
columns are Options. -/
structure Coupon where
  id : Nat
  code : String
  isActive : Bool
  discountType : DiscountType
  discountValue : Rat
  maxUses : Option Nat
  maxUsesPerUser : Option Nat
  validFrom : Option Int
  validUntil : Option Int
  isGlobal : Bool
  usedCount : Nat
  deriving DecidableEq, Repr

/-- A row of the Course table (the fields the verified routers read). -/
structure Course where
  id : Nat
  title : String
  slug : String
  description : String
  price : Rat
  isFree : Bool
  published : Bool
  featured : Bool
  thumbnail : Option String
  categoryId : Nat
  creatorId : Nat
  deriving DecidableEq, Repr

/-- A row of the Lesson table. -/
structure Lesson where
  id : Nat
  courseId : Nat
  order : Nat
  videoUrl : Option String
  isRequired : Bool
  deriving DecidableEq, Repr

/-- A row of the Enrollment table. -/
structure Enrollment where
  userId : Nat
  courseId : Nat
  appliedCouponId : Option Nat
  status : EnrollmentStatus
  progress : Rat
  completedAt : Option Int
  deriving DecidableEq, Repr

/-- A row of the StudentProgress table. -/
structure StudentProgress where
  id : Nat
  userId : Nat
  courseId : Nat
  totalWatchTime : Int
  completionRate : Rat
  lastAccessedAt : Option Int
  deriving DecidableEq, Repr

/-- A row of the LessonProgress table. -/
structure LessonProgress where
  userId : Nat
  lessonId : Nat
  studentProgressId : Nat
  watchTime : Int
  lastPosition : Int
  completed : Bool
  completedAt : Option Int
  deriving DecidableEq, Repr

/-- A row of the CouponUsage table. -/
structure CouponUsage where
  userId : Nat
  couponId : Nat
  courseId : Option Nat
  discountAmount : Rat
  deriving DecidableEq, Repr

/-- A row of the CourseCoupon join table (course-scoped coupons). -/
structure CourseCoupon where
  couponId : Nat
  courseId : Nat
  deriving DecidableEq, Repr

/-- A row of the Category table. -/
structure Category where
  id : Nat
  name : String
  slug : String
  deriving DecidableEq, Repr

/-- A row of the AuditLog table (admin action log). -/
structure AuditLog where
  action : String
  actorId : Nat
  resourceId : Nat
  resourceType : String
  deriving DecidableEq, Repr

/-- The database state: one list per table, plus a counter supplying
fresh generated ids. -/
structure DB where
  courses : List Course
  lessons : List Lesson
  enrollments : List Enrollment
  coupons : List Coupon
  courseCoupons : List CourseCoupon
  couponUsages : List CouponUsage
  studentProgresses : List StudentProgress
  lessonProgresses : List LessonProgress
  categories : List Category
  auditLogs : List AuditLog
  nextId : Nat
  deriving DecidableEq, Repr

/-- prisma.coupon.findUnique by code. -/
def findCouponByCode (db : DB) (code : String) : Option Coupon :=
  db.coupons.find? (fun c => c.code == code)

/-- prisma.coupon.findUnique by id. -/
def findCouponById (db : DB) (id : Nat) : Option Coupon :=
  db.coupons.find? (fun c => c.id == id)

/-- The courseCoupons relation of a coupon filtered by courseId. -/
def courseCouponsFor (db : DB) (couponId courseId : Nat) : List CourseCoupon :=
  db.courseCoupons.filter (fun cc => cc.couponId == couponId && cc.courseId == courseId)

/-- The couponUsage relation of a coupon filtered by userId. -/
def couponUsageOfUser (db : DB) (couponId userId : Nat) : List CouponUsage :=
  db.couponUsages.filter (fun u => u.couponId == couponId && u.userId == userId)

/-- prisma.enrollment.findUnique on the (userId, courseId) unique key. -/
def findEnrollment (db : DB) (userId courseId : Nat) : Option Enrollment :=
  db.enrollments.find? (fun e => e.userId == userId && e.courseId == courseId)

/-- prisma.course.findUnique by id. -/
def findCourse (db : DB) (id : Nat) : Option Course :=
  db.courses.find? (fun c => c.id == id)

/-- The lessons relation of a course. -/
def lessonsOfCourse (db : DB) (courseId : Nat) : List Lesson :=
  db.lessons.filter (fun l => l.courseId == courseId)

/-- prisma.lesson.findUnique by id. -/
def findLesson (db : DB) (id : Nat) : Option Lesson :=
  db.lessons.find? (fun l => l.id == id)

/-- prisma.studentProgress.findUnique on the (userId, courseId) key. -/
def findStudentProgress (db : DB) (userId courseId : Nat) : Option StudentProgress :=
  db.studentProgresses.find? (fun sp => sp.userId == userId && sp.courseId == courseId)

/-- prisma.lessonProgress.findUnique on the (userId, lessonId) key. -/
def findLessonProgress (db : DB) (userId lessonId : Nat) : Option LessonProgress :=
  db.lessonProgresses.find? (fun lp => lp.userId == userId && lp.lessonId == lessonId)

/-- prisma.category.findUnique by id. -/
def findCategory (db : DB) (id : Nat) : Option Category :=
  db.categories.find? (fun c => c.id == id)

/-- The courses relation of a category. -/
def coursesOfCategory (db : DB) (categoryId : Nat) : List Course :=
  db.courses.filter (fun c => c.categoryId == categoryId)

/-- An UPDATE statement: rewrite every row matching the predicate. -/
def updateWhere (p : α → Bool) (f : α → α) (l : List α) : List α :=
  l.map (fun a => if p a then f a else a)

/-- The JS guard `d && d > now` on a nullable date column (null is falsy). -/
def dateAfter (d : Option Int) (now : Int) : Bool :=
  match d with
  | some t => now < t
  | none => false

/-- The JS guard `d && d < now` on a nullable date column. -/
def dateBefore (d : Option Int) (now : Int) : Bool :=
  match d with
  | some t => t < now
  | none => false

/-- The JS guard `cap && used >= cap` on a nullable integer cap: both
null and 0 are falsy, so the check only fires for a positive cap. -/
def capReached (cap : Option Nat) (used : Nat) : Bool :=
  match cap with
  | some m => decide (m ≠ 0) && decide (m ≤ used)
  | none => false

/-- The JS `code.toUpperCase()` call used by the coupon lookups. -/
def toUpperCase (s : String) : String :=
  ⟨s.data.map Char.toUpper⟩

/-- The discount formula shared by the four router call sites:
percentage coupons take `price * value / 100`, fixed-amount coupons take
`Math.min(value, price)`. -/
def discountAmountFor (dt : DiscountType) (dv price : Rat) : Rat :=
  match dt with
  | .PERCENTAGE => price * dv / 100
  | .FIXED_AMOUNT => min dv price

/-- `Math.max(0, price - amount)`: the final price clamped at zero. -/
def finalPriceFor (price amount : Rat) : Rat :=
  max 0 (price - amount)

/-- Result of the discount-calculation queries. -/
structure DiscountResult where
  originalPrice : Rat
  discountAmount : Rat
  finalPrice : Rat
  discountPercentage : Rat
  deriving DecidableEq, Repr

/-- couponsRouter.calculateDiscount (public coupons router): looks up
the coupon by upper-cased code, re-runs the validity checks, then
computes the discount. -/
def calculateDiscount (db : DB) (couponCode : String) (courseId : Nat)
    (originalPrice : Rat) (now : Int) : Except ErrCode DiscountResult :=
  match findCouponByCode db (toUpperCase couponCode) with
  | none => .error .NOT_FOUND
  | some validation =>
    if !validation.isActive then .error .BAD_REQUEST
    else if dateAfter validation.validFrom now then .error .BAD_REQUEST
    else if dateBefore validation.validUntil now then .error .BAD_REQUEST
    else if capReached validation.maxUses validation.usedCount then .error .BAD_REQUEST
    else if !validation.isGlobal && (courseCouponsFor db validation.id courseId).length == 0 then
      .error .BAD_REQUEST
    else
      let discountAmount := discountAmountFor validation.discountType validation.discountValue originalPrice
      let finalPrice := finalPriceFor originalPrice discountAmount
      let discountPercentage := if 0 < originalPrice then discountAmount / originalPrice * 100 else 0
      .ok { originalPrice := originalPrice, discountAmount := discountAmount,
            finalPrice := finalPrice, discountPercentage := discountPercentage }

/-- adminCouponsRouter.calculateDiscount: looks the coupon up by id and
computes the same formula, with no validity checks. -/
def adminCalculateDiscount (db : DB) (couponId : Nat) (originalPrice : Rat) :
    Except ErrCode DiscountResult :=
  match findCouponById db couponId with
  | none => .error .NOT_FOUND
  | some coupon =>
    let discountAmount := discountAmountFor coupon.discountType coupon.discountValue originalPrice
    let finalPrice := finalPriceFor originalPrice discountAmount
    .ok { originalPrice := originalPrice, discountAmount := discountAmount,
          finalPrice := finalPrice,
          discountPercentage := if 0 < originalPrice then discountAmount / originalPrice * 100 else 0 }

/-- Pricing block returned by couponsRouter.applyCoupon. -/
structure ApplyCouponResult where
  originalPrice : Rat
  discountAmount : Rat
  finalPrice : Rat
  deriving DecidableEq, Repr

/-- couponsRouter.applyCoupon: validates the coupon (including the
per-user cap), rejects already-enrolled users, free and missing courses,
and returns the computed pricing.  The handler only reads, so the
database state component is returned unchanged on every path. -/
def applyCoupon (db : DB) (userId : Nat) (code : String) (courseId : Nat)
    (now : Int) : Except ErrCode ApplyCouponResult × DB :=
  match findCouponByCode db (toUpperCase code) with
  | none => (.error .NOT_FOUND, db)
  | some coupon =>
    if !coupon.isActive then (.error .BAD_REQUEST, db)
    else if dateAfter coupon.validFrom now then (.error .BAD_REQUEST, db)
    else if dateBefore coupon.validUntil now then (.error .BAD_REQUEST, db)
    else if capReached coupon.maxUses coupon.usedCount then (.error .BAD_REQUEST, db)
    else if capReached coupon.maxUsesPerUser (couponUsageOfUser db coupon.id userId).length then
      (.error .BAD_REQUEST, db)
    else if !coupon.isGlobal && (courseCouponsFor db coupon.id courseId).length == 0 then
      (.error .BAD_REQUEST, db)
    else
      match findEnrollment db userId courseId with
      | some _ => (.error .CONFLICT, db)
      | none =>
        match findCourse db courseId with
        | none => (.error .NOT_FOUND, db)
        | some course =>
          if course.isFree then (.error .BAD_REQUEST, db)
          else
            let originalPrice := course.price
            let discountAmount := discountAmountFor coupon.discountType coupon.discountValue originalPrice
            (.ok { originalPrice := originalPrice, discountAmount := discountAmount,
                   finalPrice := finalPriceFor originalPrice discountAmount }, db)

/-- The discount-value refinement of createCouponSchema: the value is
non-negative and a percentage discount cannot exceed 100. -/
def discountValueOk (dt : DiscountType) (dv : Rat) : Prop :=
  0 ≤ dv ∧ (dt = .PERCENTAGE → dv ≤ 100)

/-- The coupon-validation block of studentRouter.enrollCourse: looks up
the coupon by the given code (no upper-casing in this router), runs the
active/date/cap/applicability checks and yields the applied coupon id,
or none when no code was given. -/
def validateEnrollCoupon (db : DB) (userId courseId : Nat)
    (couponCode : Option String) (now : Int) : Except ErrCode (Option Nat) :=
  match couponCode with
  | none => .ok none
  | some code =>
    match findCouponByCode db code with
    | none => .error .BAD_REQUEST
    | some coupon =>
      if !coupon.isActive then .error .BAD_REQUEST
      else if dateAfter coupon.validFrom now then .error .BAD_REQUEST
      else if dateBefore coupon.validUntil now then .error .BAD_REQUEST
      else if capReached coupon.maxUses coupon.usedCount then .error .BAD_REQUEST
      else if capReached coupon.maxUsesPerUser (couponUsageOfUser db coupon.id userId).length then
        .error .BAD_REQUEST
      else if !coupon.isGlobal && (courseCouponsFor db coupon.id courseId).length == 0 then
        .error .BAD_REQUEST
      else .ok (some coupon.id)

/-- The prisma.$transaction block of studentRouter.enrollCourse: creates
the enrollment, the initial StudentProgress row, one LessonProgress row
per lesson and, when a coupon was applied, increments its usedCount and
inserts one CouponUsage row (with discountAmount 0, as in the source). -/
def enrollTransaction (db : DB) (userId courseId : Nat) (lessons : List Lesson)
    (appliedCouponId : Option Nat) : DB :=
  let spId := db.nextId
  let db1 : DB :=
    { db with
      enrollments := db.enrollments ++
        [{ userId := userId, courseId := courseId, appliedCouponId := appliedCouponId,
           status := .ACTIVE, progress := 0, completedAt := none }],
      studentProgresses := db.studentProgresses ++
        [{ id := spId, userId := userId, courseId := courseId, totalWatchTime := 0,
           completionRate := 0, lastAccessedAt := none }],
      lessonProgresses := db.lessonProgresses ++
        lessons.map (fun l =>
          { userId := userId, lessonId := l.id, studentProgressId := spId,
            watchTime := 0, lastPosition := 0, completed := false, completedAt := none }),
      nextId := db.nextId + 1 }
  match appliedCouponId with
  | none => db1
  | some cid =>
    { db1 with
      coupons := updateWhere (fun c => c.id == cid)
        (fun c => { c with usedCount := c.usedCount + 1 }) db1.coupons,
      couponUsages := db1.couponUsages ++
        [{ userId := userId, couponId := cid, courseId := some courseId, discountAmount := 0 }] }

/-- studentRouter.enrollCourse: rejects duplicate enrollments, missing
or unpublished courses and invalid coupons, then runs the enrollment
transaction. -/
def enrollCourse (db : DB) (userId courseId : Nat) (couponCode : Option String)
    (now : Int) : Except ErrCode Unit × DB :=
  match findEnrollment db userId courseId with
  | some _ => (.error .CONFLICT, db)
  | none =>
    match findCourse db courseId with
    | none => (.error .NOT_FOUND, db)
    | some course =>
      if !course.published then (.error .BAD_REQUEST, db)
      else
        match validateEnrollCoupon db userId courseId couponCode now with
        | .error e => (.error e, db)
        | .ok appliedCouponId =>
          (.ok (), enrollTransaction db userId courseId (lessonsOfCourse db courseId) appliedCouponId)

/-- The SQL join `lessonProgress.lesson.courseId = courseId`. -/
def lessonInCourse (db : DB) (lessonId courseId : Nat) : Bool :=
  db.lessons.any (fun l => l.id == lessonId && l.courseId == courseId)

/-- The completed-lesson count over given lesson and lesson-progress
tables (prisma.lessonProgress.count with the completed filter). -/
def completedCountL (lessons : List Lesson) (lps : List LessonProgress)
    (userId courseId : Nat) : Nat :=
  (lps.filter (fun lp => lp.userId == userId && lp.completed &&
    lessons.any (fun l => l.id == lp.lessonId && l.courseId == courseId))).length

/-- Number of the user's completed lesson-progress records whose lesson
belongs to the course. -/
def completedLessonCount (db : DB) (userId courseId : Nat) : Nat :=
  completedCountL db.lessons db.lessonProgresses userId courseId

/-- Sum of the user's watch times over the course, as aggregated by
updateCourseProgress. -/
def totalWatchTimeL (lessons : List Lesson) (lps : List LessonProgress)
    (userId courseId : Nat) : Int :=
  ((lps.filter (fun lp => lp.userId == userId &&
    lessons.any (fun l => l.id == lp.lessonId && l.courseId == courseId))).map
      (fun lp => lp.watchTime)).sum

/-- The completion-rate formula: completed / total * 100, and 0 when the
course has no lessons. -/
def completionRateFor (totalLessons completedLessons : Nat) : Rat :=
  if 0 < totalLessons then ((completedLessons : Rat) / (totalLessons : Rat)) * 100 else 0

/-- The updateCourseProgress helper of the student router: recounts the
lessons and the user's completed lesson-progress rows, computes the
completion rate, stores it (with the watch-time sum) on the
StudentProgress row and mirrors it onto the Enrollment row.  The two
prisma update calls throw when their row is missing. -/
def updateCourseProgress (db : DB) (userId courseId : Nat) (now : Int) :
    Except ErrCode DB :=
  let totalLessons := (lessonsOfCourse db courseId).length
  let completedLessons := completedLessonCount db userId courseId
  let totalWatchTime := totalWatchTimeL db.lessons db.lessonProgresses userId courseId
  let completionRate := completionRateFor totalLessons completedLessons
  if (findStudentProgress db userId courseId).isNone then .error .INTERNAL_SERVER_ERROR
  else
    let db1 : DB :=
      { db with
        studentProgresses := updateWhere
          (fun sp => sp.userId == userId && sp.courseId == courseId)
          (fun sp => { sp with completionRate := completionRate, totalWatchTime := totalWatchTime })
          db.studentProgresses }
    if (findEnrollment db1 userId courseId).isNone then .error .INTERNAL_SERVER_ERROR
    else
      .ok { db1 with
            enrollments := updateWhere
              (fun e => e.userId == userId && e.courseId == courseId)
              (fun e => { e with
                          progress := completionRate,
                          completedAt := if completionRate = 100 then some now else e.completedAt })
              db1.enrollments }

/-- The update branch of the lessonProgress upsert of
updateLessonProgress: watch time clamped at zero, completed overwritten
only when provided, completedAt set on a fresh completion. -/
def lessonProgressUpdate (db : DB) (userId lessonId : Nat)
    (watchTime lastPosition : Int) (completed : Option Bool) (now : Int) : DB :=
  { db with
    lessonProgresses := updateWhere
      (fun lp => lp.userId == userId && lp.lessonId == lessonId)
      (fun lp =>
        { lp with
          watchTime := max watchTime 0,
          lastPosition := lastPosition,
          completed := match completed with | some c => c | none => lp.completed,
          completedAt :=
            if completed == some true && !lp.completed then some now
            else lp.completedAt })
      db.lessonProgresses }

/-- The create branch of the lessonProgress upsert of
updateLessonProgress. -/
def lessonProgressCreate (db : DB) (userId lessonId : Nat)
    (watchTime lastPosition : Int) (completed : Option Bool) (now : Int)
    (spId : Nat) : DB :=
  { db with
    lessonProgresses := db.lessonProgresses ++
      [{ userId := userId, lessonId := lessonId, studentProgressId := spId,
         watchTime := max watchTime 0, lastPosition := lastPosition,
         completed := completed.getD false,
         completedAt := if completed == some true then some now else none }] }

/-- The final studentProgress.update of updateLessonProgress setting
lastAccessedAt on the row found before the upsert. -/
def touchLastAccessed (db : DB) (spId : Nat) (now : Int) : DB :=
  { db with
    studentProgresses := updateWhere (fun sp => sp.id == spId)
      (fun sp => { sp with lastAccessedAt := some now }) db.studentProgresses }

/-- studentRouter.updateLessonProgress: checks lesson, enrollment and
student-progress existence, upserts the per-lesson progress row, then
recomputes the course completion rate and touches lastAccessedAt.  The
route runs without a transaction, so a failure in the recomputation
leaves the upsert in place. -/
def updateLessonProgress (db : DB) (userId lessonId : Nat)
    (watchTime lastPosition : Int) (completed : Option Bool) (now : Int) :
    Except ErrCode Unit × DB :=
  match findLesson db lessonId with
  | none => (.error .NOT_FOUND, db)
  | some lesson =>
    match findEnrollment db userId lesson.courseId with
    | none => (.error .FORBIDDEN, db)
    | some _ =>
      match findStudentProgress db userId lesson.courseId with
      | none => (.error .NOT_FOUND, db)
      | some studentProgress =>
        let db1 : DB :=
          match findLessonProgress db userId lessonId with
          | some _ => lessonProgressUpdate db userId lessonId watchTime lastPosition completed now
          | none =>
            lessonProgressCreate db userId lessonId watchTime lastPosition completed now
              studentProgress.id
        match updateCourseProgress db1 userId lesson.courseId now with
        | .error e => (.error e, db1)
        | .ok db2 => (.ok (), touchLastAccessed db2 studentProgress.id now)

/-- The update branch of the lessonProgress upsert of
markLessonComplete: marks the row completed now. -/
def markCompleteUpdate (db : DB) (userId lessonId : Nat) (watchTime : Int)
    (now : Int) : DB :=
  { db with
    lessonProgresses := updateWhere
      (fun lp => lp.userId == userId && lp.lessonId == lessonId)
      (fun lp =>
        { lp with
          completed := true, completedAt := some now, watchTime := max watchTime 0 })
      db.lessonProgresses }

/-- The create branch of the lessonProgress upsert of
markLessonComplete. -/
def markCompleteCreate (db : DB) (userId lessonId : Nat) (watchTime : Int)
    (now : Int) (spId : Nat) : DB :=
  { db with
    lessonProgresses := db.lessonProgresses ++
      [{ userId := userId, lessonId := lessonId, studentProgressId := spId,
         watchTime := max watchTime 0, lastPosition := 0,
         completed := true, completedAt := some now }] }

/-- studentRouter.markLessonComplete: checks lesson and enrollment,
rejects the call when a previous required lesson of the course is not
completed, upserts the progress row as completed and recomputes the
course completion rate. -/
def markLessonComplete (db : DB) (userId lessonId : Nat) (watchTime : Int)
    (now : Int) : Except ErrCode Unit × DB :=
  match findLesson db lessonId with
  | none => (.error .NOT_FOUND, db)
  | some lesson =>
    match findEnrollment db userId lesson.courseId with
    | none => (.error .FORBIDDEN, db)
    | some _ =>
      let uncompletedRequired :=
        (db.lessons.filter (fun l =>
          l.courseId == lesson.courseId && l.order < lesson.order && l.isRequired)).filter
          (fun l => !(db.lessonProgresses.any (fun lp =>
            lp.userId == userId && lp.lessonId == l.id && lp.completed)))
      if lesson.isRequired && uncompletedRequired.length != 0 then (.error .BAD_REQUEST, db)
      else
        match findLessonProgress db userId lessonId with
        | some _ =>
          match updateCourseProgress (markCompleteUpdate db userId lessonId watchTime now)
              userId lesson.courseId now with
          | .error e => (.error e, markCompleteUpdate db userId lessonId watchTime now)
          | .ok db2 => (.ok (), db2)
        | none =>
          match findStudentProgress db userId lesson.courseId with
          | none => (.error .INTERNAL_SERVER_ERROR, db)
          | some sp =>
            match updateCourseProgress (markCompleteCreate db userId lessonId watchTime now sp.id)
                userId lesson.courseId now with
            | .error e => (.error e, markCompleteCreate db userId lessonId watchTime now sp.id)
            | .ok db2 => (.ok (), db2)

/-- Input of adminCoursesRouter.updateCourse (updateCourseSchema); every
field but the id is optional and absent fields are left unchanged. -/
structure UpdateCourseInput where
  id : Nat
  title : Option String
  slug : Option String
  description : Option String
  price : Option Rat
  categoryId : Option Nat
  isFree : Option Bool
  published : Option Bool
  featured : Option Bool
  thumbnail : Option String
  deriving DecidableEq, Repr

/-- The prisma.course.update data spread of updateCourse: each provided
field overwrites the stored one. -/
def applyCourseUpdate (input : UpdateCourseInput) (c : Course) : Course :=
  { c with
    title := input.title.getD c.title,
    slug := input.slug.getD c.slug,
    description := input.description.getD c.description,
    price := input.price.getD c.price,
    categoryId := input.categoryId.getD c.categoryId,
    isFree := input.isFree.getD c.isFree,
    published := input.published.getD c.published,
    featured := input.featured.getD c.featured,
    thumbnail := match input.thumbnail with | some t => some t | none => c.thumbnail }

/-- adminCoursesRouter.updateCourse: checks course existence and slug
uniqueness, applies the update (including the published flag, with no
readiness validation) and appends an audit-log row. -/
def updateCourse (db : DB) (adminId : Nat) (input : UpdateCourseInput) :
    Except ErrCode Unit × DB :=
  match findCourse db input.id with
  | none => (.error .NOT_FOUND, db)
  | some existingCourse =>
    let slugConflict :=
      match input.slug with
      | some s => s != existingCourse.slug && db.courses.any (fun c => c.slug == s)
      | none => false
    if slugConflict then (.error .CONFLICT, db)
    else
      let db1 : DB :=
        { db with
          courses := updateWhere (fun c => c.id == input.id) (applyCourseUpdate input) db.courses }
      (.ok (),
        { db1 with auditLogs := db1.auditLogs ++
            [{ action := "UPDATE_COURSE", actorId := adminId,
               resourceId := input.id, resourceType := "COURSE" }] })

/-- The publish-readiness validation of uploadRouter.publishCourse: the
course must have a title, a description, a thumbnail, at least one
lesson, a positive price unless free, and no lesson missing a video. -/
def publishValidationFails (db : DB) (course : Course) : Bool :=
  let lessons := lessonsOfCourse db course.id
  course.title == "" || course.description == "" ||
  course.thumbnail.isNone ||
  lessons.length == 0 ||
  (!course.isFree && decide (course.price ≤ 0)) ||
  decide (0 < (lessons.filter (fun l => l.videoUrl.isNone)).length)

/-- uploadRouter.publishCourse: when publishing, runs the readiness
validation and rejects the call with BAD_REQUEST when it fails; then
stores the published flag and appends an audit-log row. -/
def publishCourse (db : DB) (adminId courseId : Nat) (published : Bool) :
    Except ErrCode Unit × DB :=
  match findCourse db courseId with
  | none => (.error .NOT_FOUND, db)
  | some course =>
    if published && publishValidationFails db course then (.error .BAD_REQUEST, db)
    else
      let db1 : DB :=
        { db with
          courses := updateWhere (fun c => c.id == courseId)
                      (fun c => { c with published := published }) db.courses }
      (.ok (),
        { db1 with auditLogs := db1.auditLogs ++
            [{ action := if published then "PUBLISH_COURSE" else "UNPUBLISH_COURSE",
               actorId := adminId, resourceId := courseId, resourceType := "COURSE" }] })

/-- adminCategoriesRouter.deleteCategory: rejects a missing category
with NOT_FOUND and a category that still has courses with CONFLICT;
otherwise deletes the category and appends an audit-log row. -/
def deleteCategory (db : DB) (adminId categoryId : Nat) :
    Except ErrCode Unit × DB :=
  match findCategory db categoryId with
  | none => (.error .NOT_FOUND, db)
  | some _ =>
    if 0 < (coursesOfCategory db categoryId).length then (.error .CONFLICT, db)
    else
      let db1 : DB := { db with categories := db.categories.filter (fun c => c.id != categoryId) }
      (.ok (),
        { db1 with auditLogs := db1.auditLogs ++
            [{ action := "DELETE_CATEGORY", actorId := adminId,
               resourceId := categoryId, resourceType := "CATEGORY" }] })

/-- The stored completion rate of a (user, course) pair. -/
def storedCompletionRate (db : DB) (userId courseId : Nat) : Option Rat :=
  (findStudentProgress db userId courseId).map (fun sp => sp.completionRate)

/-- Uniqueness of the (userId, courseId) pair over the Enrollment table,
as enforced by the unique index of the migration. -/
def UniqueEnrollments (db : DB) : Prop :=
  db.enrollments.Pairwise (fun e1 e2 => ¬(e1.userId = e2.userId ∧ e1.courseId = e2.courseId))

/-! ## General lemmas about the list-level update operation -/

theorem find?_map_comm (g : α → α) (q : α → Bool) (hg : ∀ a, q (g a) = q a)
    (l : List α) : (l.map g).find? q = (l.find? q).map g := by
  induction l with
  | nil => rfl
  | cons a t ih =>
    simp only [List.map_cons, List.find?]
    rw [hg a]
    cases hq : q a
    · simpa using ih
    · rfl

theorem find?_updateWhere (p : α → Bool) (f : α → α) (q : α → Bool)
    (hf : ∀ a, q (f a) = q a) (l : List α) :
    (updateWhere p f l).find? q = (l.find? q).map (fun a => if p a then f a else a) := by
  apply find?_map_comm
  intro a
  by_cases h : p a <;> simp [h, hf]

/-! ## Congruence lemmas: the progress aggregates only read the lesson
and lesson-progress tables -/

theorem lessonsOfCourse_congr (db1 db2 : DB) (c : Nat) (h : db1.lessons = db2.lessons) :
    lessonsOfCourse db1 c = lessonsOfCourse db2 c := by
  simp [lessonsOfCourse, h]

theorem completedLessonCount_congr (db1 db2 : DB) (u c : Nat)
    (hl : db1.lessons = db2.lessons) (hp : db1.lessonProgresses = db2.lessonProgresses) :
    completedLessonCount db1 u c = completedLessonCount db2 u c := by
  simp [completedLessonCount, completedCountL, hl, hp]

/-- A studentProgress update that changes neither the key fields nor the
completion rate does not change the stored completion rate. -/
theorem storedCompletionRate_updateWhere (db : DB) (u c : Nat)
    (p : StudentProgress → Bool) (g : StudentProgress → StudentProgress)
    (hkey : ∀ sp, ((g sp).userId == u && (g sp).courseId == c) =
      (sp.userId == u && sp.courseId == c))
    (hrate : ∀ sp, (g sp).completionRate = sp.completionRate) :
    storedCompletionRate
      { db with studentProgresses := updateWhere p g db.studentProgresses } u c =
    storedCompletionRate db u c := by
  simp only [storedCompletionRate, findStudentProgress]
  rw [find?_updateWhere]
  · cases hfind : db.studentProgresses.find? (fun sp => sp.userId == u && sp.courseId == c) with
    | none => rfl
    | some sp =>
      by_cases hp : p sp <;> simp [hp, hrate]
  · intro sp
    by_cases hp : p sp <;> simp [hp, hkey]

/-! ## Inversion lemmas for the discount queries -/

/-- The spec formula for the discount calculation (section 4 of the
spec): percentage coupons discount price times rate over 100,
fixed-amount coupons discount min(value, price), and the final price is
clamped at zero. -/
def DiscountSpec (c : Coupon) (price : Rat) (r : DiscountResult) : Prop :=
  r.originalPrice = price ∧
  (r.discountAmount = match c.discountType with
    | .PERCENTAGE => price * c.discountValue / 100
    | .FIXED_AMOUNT => min c.discountValue price) ∧
  r.finalPrice = max 0 (price - r.discountAmount)

theorem calculateDiscount_ok_spec (db : DB) (code : String) (courseId : Nat)
    (price : Rat) (now : Int) (c : Coupon) (r : DiscountResult)
    (hc : findCouponByCode db (toUpperCase code) = some c)
    (h : calculateDiscount db code courseId price now = .ok r) :
    DiscountSpec c price r := by
  unfold calculateDiscount at h
  simp only [hc] at h
  split_ifs at h
  all_goals simp only [Except.ok.injEq] at h
  all_goals subst h
  all_goals exact ⟨rfl, by cases c.discountType <;> rfl, by cases c.discountType <;> rfl⟩

theorem adminCalculateDiscount_ok_spec (db : DB) (couponId : Nat) (price : Rat)
    (c : Coupon) (r : DiscountResult)
    (hc : findCouponById db couponId = some c)
    (h : adminCalculateDiscount db couponId price = .ok r) :
    DiscountSpec c price r := by
  unfold adminCalculateDiscount at h
  rw [hc] at h
  simp only [Except.ok.injEq] at h
  subst h
  refine ⟨rfl, ?_, ?_⟩
  · cases c.discountType <;> rfl
  · cases c.discountType <;> rfl

/-- The empty database, used to build the concrete witness states. -/
def emptyDB : DB :=
  { courses := [], lessons := [], enrollments := [], coupons := [], courseCoupons := [],
    couponUsages := [], studentProgresses := [], lessonProgresses := [], categories := [],
    auditLogs := [], nextId := 1 }

/-- C1: for every coupon and non-negative originalPrice, calculateDiscount
(public and admin routers) computes discountAmount = price * value / 100 for
PERCENTAGE coupons, min(value, price) for FIXED_AMOUNT coupons, and
finalPrice = max(0, price - discountAmount). -/
theorem c1_discount_formula (db dbA : DB) (code : String) (courseId couponId : Nat)
    (price : Rat) (now : Int) (c cA : Coupon) (r rA : DiscountResult)
    (hprice : 0 ≤ price)
    (hc : findCouponByCode db (toUpperCase code) = some c)
    (h : calculateDiscount db code courseId price now = .ok r)
    (hcA : findCouponById dbA couponId = some cA)
    (hA : adminCalculateDiscount dbA couponId price = .ok rA) :
    DiscountSpec c price r ∧ DiscountSpec cA price rA :=
  ⟨calculateDiscount_ok_spec db code courseId price now c r hc h,
   adminCalculateDiscount_ok_spec dbA couponId price cA rA hcA hA⟩

/-- The coupon of the C1 witness state: a fixed-amount discount of 3. -/
def couponC1 : Coupon :=
  { id := 11, code := "FIX3", isActive := true, discountType := .FIXED_AMOUNT,
    discountValue := 3, maxUses := none, maxUsesPerUser := none,
    validFrom := none, validUntil := none, isGlobal := true, usedCount := 0 }

def dbC1 : DB := { emptyDB with coupons := [couponC1] }

def rC1 : DiscountResult :=
  { originalPrice := 10, discountAmount := 3, finalPrice := 7, discountPercentage := 30 }

theorem c1_discount_formula_witness :
    (0 : Rat) ≤ 10 ∧ DiscountSpec couponC1 10 rC1 ∧ DiscountSpec couponC1 10 rC1 := by
  have hc : findCouponByCode dbC1 (toUpperCase "FIX3") = some couponC1 := by decide
  have hcA : findCouponById dbC1 11 = some couponC1 := by decide
  have h : calculateDiscount dbC1 "FIX3" 1 10 0 = .ok rC1 := by
    simp only [calculateDiscount, hc, couponC1, dateAfter, dateBefore, capReached,
      discountAmountFor, finalPriceFor, rC1]
    norm_num [min_def, max_def]
  have hA : adminCalculateDiscount dbC1 11 10 = .ok rC1 := by
    simp only [adminCalculateDiscount, hcA, couponC1, discountAmountFor, finalPriceFor, rC1]
    norm_num [min_def, max_def]
  exact ⟨by norm_num,
    c1_discount_formula dbC1 dbC1 "FIX3" 1 11 10 0 couponC1 couponC1 rC1 rC1
      (by norm_num) hc h hcA hA⟩

/-- C9: applyCoupon performs no database writes: the database state after
the call is identical to the state before it, on every input and state. -/
theorem c9_applyCoupon_no_writes (db : DB) (userId : Nat) (code : String)
    (courseId : Nat) (now : Int) :
    (applyCoupon db userId code courseId now).2 = db := by
  unfold applyCoupon
  repeat first
    | rfl
    | split

/-- C8: deleteCategory fails with CONFLICT and leaves the state unchanged
when the category still has courses, and deletes only course-less
categories. -/
theorem c8_delete_category_guard (db : DB) (adminId categoryId : Nat) (cat : Category)
    (hc : findCategory db categoryId = some cat) :
    (0 < (coursesOfCategory db categoryId).length →
      deleteCategory db adminId categoryId = (.error .CONFLICT, db)) ∧
    (∀ db2, deleteCategory db adminId categoryId = (.ok (), db2) →
      (coursesOfCategory db categoryId).length = 0 ∧ db2.courses = db.courses) := by
  unfold deleteCategory
  rw [hc]
  constructor
  · intro hlen
    simp [hlen]
  · intro db2 h
    by_cases hlen : 0 < (coursesOfCategory db categoryId).length
    · simp [hlen] at h
    · simp only [if_neg hlen, Prod.mk.injEq] at h
      refine ⟨by omega, ?_⟩
      rw [← h.2]

/-- The category and course of the C8 witness state. -/
def catC8 : Category := { id := 3, name := "Fitness", slug := "fitness" }

def courseC8 : Course :=
  { id := 1, title := "Course", slug := "course", description := "d", price := 10,
    isFree := false, published := true, featured := false, thumbnail := some "t",
    categoryId := 3, creatorId := 1 }

def dbC8 : DB := { emptyDB with courses := [courseC8], categories := [catC8] }

theorem c8_delete_category_guard_witness :
    findCategory dbC8 3 = some catC8 ∧
    ((0 < (coursesOfCategory dbC8 3).length →
        deleteCategory dbC8 9 3 = (.error .CONFLICT, dbC8)) ∧
     (∀ db2, deleteCategory dbC8 9 3 = (.ok (), db2) →
        (coursesOfCategory dbC8 3).length = 0 ∧ db2.courses = dbC8.courses)) :=
  ⟨by decide, c8_delete_category_guard dbC8 9 3 catC8 (by decide)⟩

/-! ## C2: discount bounds -/

/-- The coupon of the C2 counterexample: a 200 percent discount, which
createCoupon would reject but updateCoupon can produce (its refinement
skips the bound when discountType is not part of the update input). -/
def couponC2 : Coupon :=
  { id := 21, code := "SAVE200", isActive := true, discountType := .PERCENTAGE,
    discountValue := 200, maxUses := none, maxUsesPerUser := none,
    validFrom := none, validUntil := none, isGlobal := true, usedCount := 0 }

def dbC2 : DB := { emptyDB with coupons := [couponC2] }

def rC2 : DiscountResult :=
  { originalPrice := 10, discountAmount := 20, finalPrice := 0, discountPercentage := 200 }

/-- C2 counterexample: calculateDiscount accepts a PERCENTAGE coupon with
discountValue 200 and returns a discountAmount of 20 on an original price
of 10, exceeding 100 percent of the price. -/
theorem c2_counterexample :
    calculateDiscount dbC2 "SAVE200" 1 10 0 = .ok rC2 ∧
    rC2.originalPrice < rC2.discountAmount := by
  constructor
  · have hc : findCouponByCode dbC2 (toUpperCase "SAVE200") = some couponC2 := by decide
    simp only [calculateDiscount, hc, couponC2, dateAfter, dateBefore, capReached,
      discountAmountFor, finalPriceFor, rC2]
    norm_num [max_def]
  · norm_num [rC2]

theorem percentage_le_price (price dv : Rat) (hp : 0 ≤ price) (h0 : 0 ≤ dv)
    (h100 : dv ≤ 100) : price * dv / 100 ≤ price := by
  nlinarith

theorem applyCoupon_ok_spec (db : DB) (userId : Nat) (code : String) (courseId : Nat)
    (now : Int) (c : Coupon) (r : ApplyCouponResult) (db2 : DB)
    (hc : findCouponByCode db (toUpperCase code) = some c)
    (h : applyCoupon db userId code courseId now = (.ok r, db2)) :
    ∃ course, findCourse db courseId = some course ∧
      r.originalPrice = course.price ∧
      (r.discountAmount = match c.discountType with
        | .PERCENTAGE => course.price * c.discountValue / 100
        | .FIXED_AMOUNT => min c.discountValue course.price) ∧
      r.finalPrice = max 0 (course.price - r.discountAmount) := by
  unfold applyCoupon at h
  simp only [hc] at h
  split_ifs at h
  all_goals try exact (Except.noConfusion (congrArg Prod.fst h))
  cases he : findEnrollment db userId courseId with
  | some e =>
    simp only [he] at h
    exact (Except.noConfusion (congrArg Prod.fst h))
  | none =>
    cases hco : findCourse db courseId with
    | none =>
      simp only [he, hco] at h
      exact (Except.noConfusion (congrArg Prod.fst h))
    | some course =>
      simp only [he, hco] at h
      split_ifs at h
      · exact (Except.noConfusion (congrArg Prod.fst h))
      · simp only [Prod.mk.injEq, Except.ok.injEq] at h
        obtain ⟨hr, _⟩ := h
        subst hr
        exact ⟨course, rfl, rfl, by cases c.discountType <;> rfl,
          by cases c.discountType <;> rfl⟩

/-- C2 (amended): for coupons whose discountValue satisfies the
createCouponSchema refinement (non-negative, and at most 100 for
PERCENTAGE coupons), calculateDiscount and applyCoupon never discount
more than the original price on a PERCENTAGE coupon, and the final price
is never negative.  Unamended the claim is false: a PERCENTAGE coupon
with discountValue above 100 (reachable through updateCoupon, whose
refinement skips the bound when discountType is absent from the input)
passes every validation check of both operations. -/
theorem c2_amended_discount_bounds (db dbA : DB) (code codeA : String)
    (courseId courseIdA userId : Nat) (price : Rat) (now nowA : Int)
    (c cA : Coupon) (r : DiscountResult) (rA : ApplyCouponResult)
    (course : Course) (dbA2 : DB)
    (hprice : 0 ≤ price)
    (hvOk : discountValueOk c.discountType c.discountValue)
    (hc : findCouponByCode db (toUpperCase code) = some c)
    (h : calculateDiscount db code courseId price now = .ok r)
    (hvOkA : discountValueOk cA.discountType cA.discountValue)
    (hcA : findCouponByCode dbA (toUpperCase codeA) = some cA)
    (hcourse : findCourse dbA courseIdA = some course)
    (hpriceA : 0 ≤ course.price)
    (hA : applyCoupon dbA userId codeA courseIdA nowA = (.ok rA, dbA2)) :
    (c.discountType = .PERCENTAGE → r.discountAmount ≤ price) ∧
    0 ≤ r.finalPrice ∧
    (cA.discountType = .PERCENTAGE → rA.discountAmount ≤ rA.originalPrice) ∧
    0 ≤ rA.finalPrice := by
  obtain ⟨horig, hamount, hfinal⟩ := calculateDiscount_ok_spec db code courseId price now c r hc h
  obtain ⟨courseB, hcoB, horigA, hamountA, hfinalA⟩ :=
    applyCoupon_ok_spec dbA userId codeA courseIdA nowA cA rA dbA2 hcA hA
  have hcb : courseB = course := by
    rw [hcourse] at hcoB
    exact (Option.some.injEq _ _).mp hcoB.symm
  rw [hcb] at horigA hamountA hfinalA
  refine ⟨?_, ?_, ?_, ?_⟩
  · intro hdt
    rw [hamount, hdt]
    exact percentage_le_price price c.discountValue hprice hvOk.1 (hvOk.2 hdt)
  · rw [hfinal]
    exact le_max_left 0 _
  · intro hdt
    rw [hamountA, horigA, hdt]
    exact percentage_le_price course.price cA.discountValue hpriceA hvOkA.1 (hvOkA.2 hdt)
  · rw [hfinalA]
    exact le_max_left 0 _

/-- The coupon, course and database of the C2 amended-claim witness. -/
def couponC2w : Coupon :=
  { id := 22, code := "HALF", isActive := true, discountType := .PERCENTAGE,
    discountValue := 50, maxUses := none, maxUsesPerUser := none,
    validFrom := none, validUntil := none, isGlobal := true, usedCount := 0 }

def courseC2w : Course :=
  { id := 1, title := "Course", slug := "course", description := "d", price := 10,
    isFree := false, published := true, featured := false, thumbnail := some "t",
    categoryId := 3, creatorId := 1 }

def dbC2w : DB := { emptyDB with coupons := [couponC2w], courses := [courseC2w] }

def rC2w : DiscountResult :=
  { originalPrice := 10, discountAmount := 5, finalPrice := 5, discountPercentage := 50 }

def rAC2w : ApplyCouponResult :=
  { originalPrice := 10, discountAmount := 5, finalPrice := 5 }

theorem c2_amended_discount_bounds_witness :
    (couponC2w.discountType = .PERCENTAGE → rC2w.discountAmount ≤ 10) ∧
    (0 : Rat) ≤ rC2w.finalPrice ∧
    (couponC2w.discountType = .PERCENTAGE → rAC2w.discountAmount ≤ rAC2w.originalPrice) ∧
    (0 : Rat) ≤ rAC2w.finalPrice := by
  have hc : findCouponByCode dbC2w (toUpperCase "HALF") = some couponC2w := by decide
  have hcourse : findCourse dbC2w 1 = some courseC2w := by decide
  have h : calculateDiscount dbC2w "HALF" 1 10 0 = .ok rC2w := by
    simp only [calculateDiscount, hc, couponC2w, dateAfter, dateBefore, capReached,
      discountAmountFor, finalPriceFor, rC2w]
    norm_num [max_def]
  have hA : applyCoupon dbC2w 7 "HALF" 1 0 = (.ok rAC2w, dbC2w) := by
    have hen : findEnrollment dbC2w 7 1 = none := by decide
    have hcu : couponUsageOfUser dbC2w 22 7 = [] := by decide
    simp only [applyCoupon, hc, hen, hcourse, couponC2w, courseC2w, dateAfter, dateBefore,
      capReached, hcu, discountAmountFor, finalPriceFor, rAC2w]
    norm_num [max_def]
  exact c2_amended_discount_bounds dbC2w dbC2w "HALF" "HALF" 1 1 7 10 0 0
    couponC2w couponC2w rC2w rAC2w courseC2w dbC2w
    (by norm_num) ⟨by norm_num [couponC2w], fun _ => by norm_num [couponC2w]⟩ hc h
    ⟨by norm_num [couponC2w], fun _ => by norm_num [couponC2w]⟩ hc hcourse
    (by norm_num [courseC2w]) hA

/-! ## C3: publishing and the missing-video check -/

def courseC3 : Course :=
  { id := 1, title := "Course", slug := "course", description := "d", price := 10,
    isFree := false, published := false, featured := false, thumbnail := some "t",
    categoryId := 3, creatorId := 1 }

def lessonC3 : Lesson :=
  { id := 2, courseId := 1, order := 1, videoUrl := none, isRequired := true }

def dbC3 : DB := { emptyDB with courses := [courseC3], lessons := [lessonC3] }

def inputC3 : UpdateCourseInput :=
  { id := 1, title := none, slug := none, description := none, price := none,
    categoryId := none, isFree := none, published := some true, featured := none,
    thumbnail := none }

/-- C3 counterexample: adminCoursesRouter.updateCourse sets published to
true on a course whose only lesson has no video, succeeding instead of
failing: the missing-video readiness check is not part of updateCourse. -/
theorem c3_counterexample :
    (updateCourse dbC3 9 inputC3).1 = .ok () ∧
    ((updateCourse dbC3 9 inputC3).2.courses.map Course.published) = [true] ∧
    0 < ((lessonsOfCourse dbC3 1).filter (fun l => l.videoUrl.isNone)).length := by
  refine ⟨rfl, by decide, by decide⟩

/-- C3 (amended): the missing-video publish guard is enforced by
uploadRouter.publishCourse, not by updateCourse: publishing through
publishCourse fails with BAD_REQUEST, leaving the state unchanged, when
any lesson of the course lacks a video. -/
theorem c3_publish_video_check (db : DB) (adminId courseId : Nat) (course : Course)
    (hc : findCourse db courseId = some course)
    (hv : 0 < ((lessonsOfCourse db courseId).filter (fun l => l.videoUrl.isNone)).length) :
    publishCourse db adminId courseId true = (.error .BAD_REQUEST, db) := by
  have hid : course.id = courseId := by
    have hc2 : db.courses.find? (fun c => c.id == courseId) = some course := by
      simpa [findCourse] using hc
    have hbeq := List.find?_some hc2
    simpa using hbeq
  have hfail : publishValidationFails db course = true := by
    unfold publishValidationFails
    rw [hid]
    simp [hv]
  unfold publishCourse
  rw [hc]
  simp [hfail]

def dbC3w : DB := { emptyDB with courses := [courseC3], lessons := [lessonC3] }

theorem c3_publish_video_check_witness :
    publishCourse dbC3w 9 1 true = (.error .BAD_REQUEST, dbC3w) :=
  c3_publish_video_check dbC3w 9 1 courseC3 (by decide) (by decide)

/-! ## Inversion lemmas for enrollCourse -/

theorem enrollCourse_error_state (db : DB) (u c : Nat) (cc : Option String) (now : Int)
    (e : ErrCode) (db2 : DB)
    (h : enrollCourse db u c cc now = (.error e, db2)) : db2 = db := by
  unfold enrollCourse at h
  cases hfe : findEnrollment db u c with
  | some x =>
    simp only [hfe, Prod.mk.injEq] at h
    exact h.2.symm
  | none =>
    simp only [hfe] at h
    cases hco : findCourse db c with
    | none =>
      simp only [hco, Prod.mk.injEq] at h
      exact h.2.symm
    | some course =>
      simp only [hco] at h
      split_ifs at h
      · simp only [Prod.mk.injEq] at h
        exact h.2.symm
      · cases hv : validateEnrollCoupon db u c cc now with
        | error e2 =>
          simp only [hv, Prod.mk.injEq] at h
          exact h.2.symm
        | ok aid =>
          simp only [hv, Prod.mk.injEq] at h
          exact (Except.noConfusion h.1)

theorem enrollCourse_ok_state (db : DB) (u c : Nat) (cc : Option String) (now : Int)
    (db2 : DB) (h : enrollCourse db u c cc now = (.ok (), db2)) :
    findEnrollment db u c = none ∧
    ∃ aid, validateEnrollCoupon db u c cc now = .ok aid ∧
      db2 = enrollTransaction db u c (lessonsOfCourse db c) aid := by
  unfold enrollCourse at h
  cases hfe : findEnrollment db u c with
  | some x =>
    simp only [hfe] at h
    exact (Except.noConfusion (congrArg Prod.fst h))
  | none =>
    simp only [hfe] at h
    cases hco : findCourse db c with
    | none =>
      simp only [hco] at h
      exact (Except.noConfusion (congrArg Prod.fst h))
    | some course =>
      simp only [hco] at h
      split_ifs at h
      · exact (Except.noConfusion (congrArg Prod.fst h))
      · cases hv : validateEnrollCoupon db u c cc now with
        | error e2 =>
          simp only [hv] at h
          exact (Except.noConfusion (congrArg Prod.fst h))
        | ok aid =>
          simp only [hv, Prod.mk.injEq] at h
          exact ⟨rfl, aid, rfl, h.2.symm⟩

theorem validateEnrollCoupon_some_ok (db : DB) (u c : Nat) (code : String) (now : Int)
    (aid : Option Nat)
    (h : validateEnrollCoupon db u c (some code) now = .ok aid) :
    ∃ cpn, findCouponByCode db code = some cpn ∧ aid = some cpn.id ∧
      cpn.isActive = true ∧
      capReached cpn.maxUses cpn.usedCount = false ∧
      capReached cpn.maxUsesPerUser (couponUsageOfUser db cpn.id u).length = false := by
  unfold validateEnrollCoupon at h
  cases hfc : findCouponByCode db code with
  | none =>
    simp only [hfc] at h
    exact (Except.noConfusion h)
  | some cpn =>
    simp only [hfc] at h
    split_ifs at h with h1 h2 h3 h4 h5 h6
    all_goals try exact (Except.noConfusion h)
    simp only [Except.ok.injEq] at h
    refine ⟨cpn, rfl, h.symm, ?_, ?_, ?_⟩
    · simpa using h1
    · simpa using h4
    · simpa using h5

/-- C4: a second enrollCourse call for the same (user, course) pair fails
with CONFLICT and changes nothing, and enrollCourse preserves the
at-most-one-enrollment-per-pair invariant of the unique index. -/
theorem c4_enroll_unique (db : DB) (userId courseId : Nat) (couponCode : Option String)
    (now : Int) (hu : UniqueEnrollments db) :
    ((findEnrollment db userId courseId).isSome = true →
      enrollCourse db userId courseId couponCode now = (.error .CONFLICT, db)) ∧
    UniqueEnrollments (enrollCourse db userId courseId couponCode now).2 := by
  constructor
  · intro hs
    obtain ⟨e, he⟩ := Option.isSome_iff_exists.mp hs
    simp only [enrollCourse, he]
  · rcases hres : enrollCourse db userId courseId couponCode now with ⟨res, db2⟩
    cases res with
    | error e =>
      have : db2 = db := enrollCourse_error_state db userId courseId couponCode now e db2 hres
      simpa [this] using hu
    | ok u =>
      cases u
      obtain ⟨hnone, aid, -, hdb2⟩ :=
        enrollCourse_ok_state db userId courseId couponCode now db2 hres
      subst hdb2
      have hens : (enrollTransaction db userId courseId (lessonsOfCourse db courseId)
          aid).enrollments = db.enrollments ++
          [{ userId := userId, courseId := courseId, appliedCouponId := aid,
             status := .ACTIVE, progress := 0, completedAt := none }] := by
        unfold enrollTransaction
        cases aid <;> rfl
      unfold UniqueEnrollments
      rw [hens, List.pairwise_append]
      refine ⟨hu, List.pairwise_singleton _ _, ?_⟩
      intro x hx y hy
      simp only [List.mem_singleton] at hy
      subst hy
      rintro ⟨h1, h2⟩
      have hnone2 : ∀ x ∈ db.enrollments, x.userId = userId → ¬x.courseId = courseId := by
        simpa [findEnrollment, List.find?_eq_none] using hnone
      exact hnone2 x hx (by simpa using h1) (by simpa using h2)

def enrC4 : Enrollment :=
  { userId := 7, courseId := 1, appliedCouponId := none, status := .ACTIVE,
    progress := 0, completedAt := none }

def dbC4 : DB := { emptyDB with enrollments := [enrC4] }

theorem c4_enroll_unique_witness :
    ((findEnrollment dbC4 7 1).isSome = true →
      enrollCourse dbC4 7 1 none 0 = (.error .CONFLICT, dbC4)) ∧
    UniqueEnrollments (enrollCourse dbC4 7 1 none 0).2 :=
  c4_enroll_unique dbC4 7 1 none 0 (by simp [UniqueEnrollments, dbC4, emptyDB])

/-- C6: when a coupon's global usage cap is reached, or its per-user cap
is reached for the calling user, enrollCourse (given that the earlier
enrollment and course guards pass) and applyCoupon (given that the
earlier coupon guards pass) fail with BAD_REQUEST and leave the state
unchanged. -/
theorem c6_caps_enforced (db dbA : DB) (userId userIdA courseId courseIdA : Nat)
    (code codeA : String) (now nowA : Int) (cpn cpnA : Coupon) (course : Course)
    (he : findEnrollment db userId courseId = none)
    (hcourse : findCourse db courseId = some course)
    (hpub : course.published = true)
    (hcpn : findCouponByCode db code = some cpn)
    (hact : cpn.isActive = true)
    (hvf : dateAfter cpn.validFrom now = false)
    (hvu : dateBefore cpn.validUntil now = false)
    (hcpnA : findCouponByCode dbA (toUpperCase codeA) = some cpnA)
    (hactA : cpnA.isActive = true)
    (hvfA : dateAfter cpnA.validFrom nowA = false)
    (hvuA : dateBefore cpnA.validUntil nowA = false) :
    (capReached cpn.maxUses cpn.usedCount = true →
      enrollCourse db userId courseId (some code) now = (.error .BAD_REQUEST, db)) ∧
    (capReached cpn.maxUses cpn.usedCount = false →
      capReached cpn.maxUsesPerUser (couponUsageOfUser db cpn.id userId).length = true →
      enrollCourse db userId courseId (some code) now = (.error .BAD_REQUEST, db)) ∧
    (capReached cpnA.maxUses cpnA.usedCount = true →
      applyCoupon dbA userIdA codeA courseIdA nowA = (.error .BAD_REQUEST, dbA)) ∧
    (capReached cpnA.maxUses cpnA.usedCount = false →
      capReached cpnA.maxUsesPerUser (couponUsageOfUser dbA cpnA.id userIdA).length = true →
      applyCoupon dbA userIdA codeA courseIdA nowA = (.error .BAD_REQUEST, dbA)) := by
  refine ⟨?_, ?_, ?_, ?_⟩
  · intro hcap
    simp [enrollCourse, he, hcourse, hpub, validateEnrollCoupon, hcpn, hact, hvf, hvu, hcap]
  · intro hcap hcapU
    simp [enrollCourse, he, hcourse, hpub, validateEnrollCoupon, hcpn, hact, hvf, hvu,
      hcap, hcapU]
  · intro hcap
    simp [applyCoupon, hcpnA, hactA, hvfA, hvuA, hcap]
  · intro hcap hcapU
    simp [applyCoupon, hcpnA, hactA, hvfA, hvuA, hcap, hcapU]

/-- The C6 witness states: a coupon whose global cap is used up for the
enrollCourse side, and a coupon whose per-user cap the user has used up
for the applyCoupon side. -/
def cpnC6 : Coupon :=
  { id := 31, code := "CAPPED", isActive := true, discountType := .FIXED_AMOUNT,
    discountValue := 2, maxUses := some 1, maxUsesPerUser := none,
    validFrom := none, validUntil := none, isGlobal := true, usedCount := 1 }

def courseC6 : Course :=
  { id := 1, title := "Course", slug := "course", description := "d", price := 10,
    isFree := false, published := true, featured := false, thumbnail := some "t",
    categoryId := 3, creatorId := 1 }

def dbC6 : DB := { emptyDB with coupons := [cpnC6], courses := [courseC6] }

def cpnC6A : Coupon :=
  { id := 32, code := "ONCE", isActive := true, discountType := .FIXED_AMOUNT,
    discountValue := 2, maxUses := none, maxUsesPerUser := some 1,
    validFrom := none, validUntil := none, isGlobal := true, usedCount := 5 }

def usageC6A : CouponUsage :=
  { userId := 7, couponId := 32, courseId := some 1, discountAmount := 0 }

def dbC6A : DB :=
  { emptyDB with coupons := [cpnC6A], couponUsages := [usageC6A] }

theorem c6_caps_enforced_witness :
    (capReached cpnC6.maxUses cpnC6.usedCount = true →
      enrollCourse dbC6 7 1 (some "CAPPED") 0 = (.error .BAD_REQUEST, dbC6)) ∧
    (capReached cpnC6.maxUses cpnC6.usedCount = false →
      capReached cpnC6.maxUsesPerUser (couponUsageOfUser dbC6 cpnC6.id 7).length = true →
      enrollCourse dbC6 7 1 (some "CAPPED") 0 = (.error .BAD_REQUEST, dbC6)) ∧
    (capReached cpnC6A.maxUses cpnC6A.usedCount = true →
      applyCoupon dbC6A 7 "ONCE" 1 0 = (.error .BAD_REQUEST, dbC6A)) ∧
    (capReached cpnC6A.maxUses cpnC6A.usedCount = false →
      capReached cpnC6A.maxUsesPerUser (couponUsageOfUser dbC6A cpnC6A.id 7).length = true →
      applyCoupon dbC6A 7 "ONCE" 1 0 = (.error .BAD_REQUEST, dbC6A)) :=
  c6_caps_enforced dbC6 dbC6A 7 7 1 1 "CAPPED" "ONCE" 0 0 cpnC6 cpnC6A courseC6
    (by decide) (by decide) (by decide) (by decide) (by decide) (by decide) (by decide)
    (by decide) (by decide) (by decide) (by decide)

/-- C7: enrollCourse is all-or-nothing: any error leaves the database
exactly as it was, and a success performs exactly the enrollment insert,
the initial StudentProgress insert, one LessonProgress insert per lesson
of the course and, when a coupon was applied, exactly one usedCount
increment of that coupon and exactly one new CouponUsage row. -/
theorem c7_enroll_transactional (db : DB) (userId courseId : Nat)
    (couponCode : Option String) (now : Int) (res : Except ErrCode Unit) (db2 : DB)
    (h : enrollCourse db userId courseId couponCode now = (res, db2)) :
    (∀ e, res = .error e → db2 = db) ∧
    (res = .ok () → ∃ aid,
      validateEnrollCoupon db userId courseId couponCode now = .ok aid ∧
      db2.enrollments = db.enrollments ++
        [{ userId := userId, courseId := courseId, appliedCouponId := aid,
           status := .ACTIVE, progress := 0, completedAt := none }] ∧
      db2.studentProgresses = db.studentProgresses ++
        [{ id := db.nextId, userId := userId, courseId := courseId, totalWatchTime := 0,
           completionRate := 0, lastAccessedAt := none }] ∧
      db2.lessonProgresses = db.lessonProgresses ++
        (lessonsOfCourse db courseId).map (fun l =>
          { userId := userId, lessonId := l.id, studentProgressId := db.nextId,
            watchTime := 0, lastPosition := 0, completed := false, completedAt := none }) ∧
      ((aid = none → db2.coupons = db.coupons ∧ db2.couponUsages = db.couponUsages) ∧
       (∀ cid, aid = some cid →
          db2.coupons = updateWhere (fun x => x.id == cid)
            (fun x => { x with usedCount := x.usedCount + 1 }) db.coupons ∧
          db2.couponUsages = db.couponUsages ++
            [{ userId := userId, couponId := cid, courseId := some courseId,
               discountAmount := 0 }]))) := by
  constructor
  · intro e hres
    subst hres
    exact enrollCourse_error_state db userId courseId couponCode now e db2 h
  · intro hres
    subst hres
    obtain ⟨-, aid, hv, hdb2⟩ :=
      enrollCourse_ok_state db userId courseId couponCode now db2 h
    subst hdb2
    refine ⟨aid, hv, ?_, ?_, ?_, ?_, ?_⟩
    · unfold enrollTransaction
      cases aid <;> rfl
    · unfold enrollTransaction
      cases aid <;> rfl
    · unfold enrollTransaction
      cases aid <;> rfl
    · intro haid
      subst haid
      exact ⟨rfl, rfl⟩
    · intro cid haid
      subst haid
      exact ⟨rfl, rfl⟩

def courseC7 : Course :=
  { id := 1, title := "Course", slug := "course", description := "d", price := 10,
    isFree := false, published := true, featured := false, thumbnail := some "t",
    categoryId := 3, creatorId := 1 }

def cpnC7 : Coupon :=
  { id := 41, code := "APPLY", isActive := true, discountType := .FIXED_AMOUNT,
    discountValue := 2, maxUses := none, maxUsesPerUser := none,
    validFrom := none, validUntil := none, isGlobal := true, usedCount := 0 }

def lessonC7 : Lesson :=
  { id := 2, courseId := 1, order := 1, videoUrl := some "v", isRequired := true }

def dbC7 : DB :=
  { emptyDB with courses := [courseC7], coupons := [cpnC7], lessons := [lessonC7] }

theorem c7_enroll_transactional_witness :
    (∀ e, (enrollCourse dbC7 7 1 (some "APPLY") 0).1 = .error e →
      (enrollCourse dbC7 7 1 (some "APPLY") 0).2 = dbC7) ∧
    ((enrollCourse dbC7 7 1 (some "APPLY") 0).1 = .ok () → ∃ aid,
      validateEnrollCoupon dbC7 7 1 (some "APPLY") 0 = .ok aid ∧
      (enrollCourse dbC7 7 1 (some "APPLY") 0).2.enrollments = dbC7.enrollments ++
        [{ userId := 7, courseId := 1, appliedCouponId := aid,
           status := .ACTIVE, progress := 0, completedAt := none }] ∧
      (enrollCourse dbC7 7 1 (some "APPLY") 0).2.studentProgresses = dbC7.studentProgresses ++
        [{ id := dbC7.nextId, userId := 7, courseId := 1, totalWatchTime := 0,
           completionRate := 0, lastAccessedAt := none }] ∧
      (enrollCourse dbC7 7 1 (some "APPLY") 0).2.lessonProgresses = dbC7.lessonProgresses ++
        (lessonsOfCourse dbC7 1).map (fun l =>
          { userId := 7, lessonId := l.id, studentProgressId := dbC7.nextId,
            watchTime := 0, lastPosition := 0, completed := false, completedAt := none }) ∧
      ((aid = none → (enrollCourse dbC7 7 1 (some "APPLY") 0).2.coupons = dbC7.coupons ∧
          (enrollCourse dbC7 7 1 (some "APPLY") 0).2.couponUsages = dbC7.couponUsages) ∧
       (∀ cid, aid = some cid →
          (enrollCourse dbC7 7 1 (some "APPLY") 0).2.coupons = updateWhere (fun x => x.id == cid)
            (fun x => { x with usedCount := x.usedCount + 1 }) dbC7.coupons ∧
          (enrollCourse dbC7 7 1 (some "APPLY") 0).2.couponUsages = dbC7.couponUsages ++
            [{ userId := 7, couponId := cid, courseId := some 1,
               discountAmount := 0 }]))) :=
  c7_enroll_transactional dbC7 7 1 (some "APPLY") 0
    (enrollCourse dbC7 7 1 (some "APPLY") 0).1 (enrollCourse dbC7 7 1 (some "APPLY") 0).2 rfl

/-- C10: a successful coupon-applying enrollCourse records the new
CouponUsage row with discountAmount 0, whatever the coupon's type and
value and the course price are. -/
theorem c10_usage_zero_discount (db : DB) (userId courseId : Nat) (code : String)
    (now : Int) (db2 : DB) (cpn : Coupon)
    (hc : findCouponByCode db code = some cpn)
    (h : enrollCourse db userId courseId (some code) now = (.ok (), db2)) :
    db2.couponUsages = db.couponUsages ++
      [{ userId := userId, couponId := cpn.id, courseId := some courseId,
         discountAmount := 0 }] := by
  obtain ⟨-, aid, hv, hdb2⟩ :=
    enrollCourse_ok_state db userId courseId (some code) now db2 h
  obtain ⟨cpn2, hc2, haid, -, -, -⟩ :=
    validateEnrollCoupon_some_ok db userId courseId code now aid hv
  have hcc : cpn2 = cpn := by
    rw [hc] at hc2
    exact (Option.some.injEq _ _).mp hc2.symm
  subst haid
  subst hdb2
  rw [hcc]
  unfold enrollTransaction
  rfl

def dbC10 : DB :=
  { emptyDB with courses := [courseC7], coupons := [cpnC7] }

theorem c10_usage_zero_discount_witness :
    (enrollCourse dbC10 7 1 (some "APPLY") 0).2.couponUsages = dbC10.couponUsages ++
      [{ userId := 7, couponId := cpnC7.id, courseId := some 1, discountAmount := 0 }] := by
  have h1 : (enrollCourse dbC10 7 1 (some "APPLY") 0).1 = .ok () := rfl
  have h : enrollCourse dbC10 7 1 (some "APPLY") 0 =
      (.ok (), (enrollCourse dbC10 7 1 (some "APPLY") 0).2) := by
    rw [← h1]
  exact c10_usage_zero_discount dbC10 7 1 "APPLY" 0
    (enrollCourse dbC10 7 1 (some "APPLY") 0).2 cpnC7 (by decide) h

/-! ## Completion-rate lemmas (C5) -/

theorem storedCompletionRate_congr (db1 db2 : DB) (u c : Nat)
    (h : db1.studentProgresses = db2.studentProgresses) :
    storedCompletionRate db1 u c = storedCompletionRate db2 u c := by
  simp [storedCompletionRate, findStudentProgress, h]

theorem storedCompletionRate_set (db : DB) (u c : Nat) (r : Rat) (tw : Int)
    (sp0 : StudentProgress) (hfind : findStudentProgress db u c = some sp0) :
    storedCompletionRate
      { db with
        studentProgresses := updateWhere
          (fun sp => sp.userId == u && sp.courseId == c)
          (fun sp => { sp with completionRate := r, totalWatchTime := tw })
          db.studentProgresses } u c = some r := by
  have hfind2 : db.studentProgresses.find?
      (fun sp => sp.userId == u && sp.courseId == c) = some sp0 := by
    simpa [findStudentProgress] using hfind
  have hq := List.find?_some hfind2
  have hcomm := find?_updateWhere
    (fun sp => sp.userId == u && sp.courseId == c)
    (fun sp => { sp with completionRate := r, totalWatchTime := tw })
    (fun sp => sp.userId == u && sp.courseId == c)
    (fun a => rfl) db.studentProgresses
  simp only [storedCompletionRate, findStudentProgress]
  rw [hcomm, hfind2]
  simp only [Option.map_some']
  rw [if_pos hq]

/-- Success inversion for updateCourseProgress: the lesson and
lesson-progress tables are untouched and the stored completion rate is
exactly completed / total * 100 as recomputed over the state it ran
on. -/
theorem updateCourseProgress_ok (db : DB) (u c : Nat) (now : Int) (db2 : DB)
    (h : updateCourseProgress db u c now = .ok db2) :
    db2.lessons = db.lessons ∧ db2.lessonProgresses = db.lessonProgresses ∧
    storedCompletionRate db2 u c =
      some (completionRateFor (lessonsOfCourse db c).length (completedLessonCount db u c)) := by
  simp only [updateCourseProgress] at h
  split_ifs at h with hsp hen hrate
  all_goals try exact (Except.noConfusion h)
  all_goals simp only [Except.ok.injEq] at h
  all_goals subst h
  all_goals refine ⟨rfl, rfl, ?_⟩
  all_goals
    cases hsp0 : findStudentProgress db u c with
    | none =>
      rw [hsp0] at hsp
      simp at hsp
    | some sp0 =>
      exact (storedCompletionRate_congr _ _ u c rfl).trans
        (storedCompletionRate_set db u c
          (completionRateFor (lessonsOfCourse db c).length (completedLessonCount db u c))
          (totalWatchTimeL db.lessons db.lessonProgresses u c) sp0 hsp0)

/-- Success inversion for updateLessonProgress: afterwards the stored
completion rate of the lesson's course equals completed / total * 100
recomputed over the final state. -/
theorem updateLessonProgress_ok_rate (db : DB) (userId lessonId : Nat)
    (watchTime lastPosition : Int) (completed : Option Bool) (now : Int)
    (lesson : Lesson) (db2 : DB)
    (hl : findLesson db lessonId = some lesson)
    (h : updateLessonProgress db userId lessonId watchTime lastPosition completed now
      = (.ok (), db2)) :
    storedCompletionRate db2 userId lesson.courseId =
      some (completionRateFor (lessonsOfCourse db2 lesson.courseId).length
        (completedLessonCount db2 userId lesson.courseId)) := by
  unfold updateLessonProgress at h
  simp only [hl] at h
  cases hen : findEnrollment db userId lesson.courseId with
  | none =>
    simp only [hen] at h
    exact (Except.noConfusion (congrArg Prod.fst h))
  | some enr =>
    simp only [hen] at h
    cases hsp : findStudentProgress db userId lesson.courseId with
    | none =>
      simp only [hsp] at h
      exact (Except.noConfusion (congrArg Prod.fst h))
    | some spRow =>
      simp only [hsp] at h
      cases hlp : findLessonProgress db userId lessonId with
      | some lpRow =>
        simp only [hlp] at h
        cases hup : updateCourseProgress
            (lessonProgressUpdate db userId lessonId watchTime lastPosition completed now)
            userId lesson.courseId now with
        | error e =>
          simp only [hup] at h
          exact (Except.noConfusion (congrArg Prod.fst h))
        | ok dbP =>
          simp only [hup, Prod.mk.injEq] at h
          obtain ⟨-, hdb2⟩ := h
          subst hdb2
          obtain ⟨hPl, hPlp, hProk⟩ := updateCourseProgress_ok _ _ _ _ _ hup
          have htouch : storedCompletionRate (touchLastAccessed dbP spRow.id now)
              userId lesson.courseId = storedCompletionRate dbP userId lesson.courseId := by
            unfold touchLastAccessed
            exact storedCompletionRate_updateWhere dbP userId lesson.courseId _ _
              (fun sp => rfl) (fun sp => rfl)
          have hl2 : (touchLastAccessed dbP spRow.id now).lessons =
              (lessonProgressUpdate db userId lessonId watchTime lastPosition completed
                now).lessons := hPl
          have hp2 : (touchLastAccessed dbP spRow.id now).lessonProgresses =
              (lessonProgressUpdate db userId lessonId watchTime lastPosition completed
                now).lessonProgresses := hPlp
          rw [htouch, hProk,
            lessonsOfCourse_congr _ _ lesson.courseId hl2,
            completedLessonCount_congr _ _ userId lesson.courseId hl2 hp2]
      | none =>
        simp only [hlp] at h
        cases hup : updateCourseProgress
            (lessonProgressCreate db userId lessonId watchTime lastPosition completed now
              spRow.id) userId lesson.courseId now with
        | error e =>
          simp only [hup] at h
          exact (Except.noConfusion (congrArg Prod.fst h))
        | ok dbP =>
          simp only [hup, Prod.mk.injEq] at h
          obtain ⟨-, hdb2⟩ := h
          subst hdb2
          obtain ⟨hPl, hPlp, hProk⟩ := updateCourseProgress_ok _ _ _ _ _ hup
          have htouch : storedCompletionRate (touchLastAccessed dbP spRow.id now)
              userId lesson.courseId = storedCompletionRate dbP userId lesson.courseId := by
            unfold touchLastAccessed
            exact storedCompletionRate_updateWhere dbP userId lesson.courseId _ _
              (fun sp => rfl) (fun sp => rfl)
          have hl2 : (touchLastAccessed dbP spRow.id now).lessons =
              (lessonProgressCreate db userId lessonId watchTime lastPosition completed now
                spRow.id).lessons := hPl
          have hp2 : (touchLastAccessed dbP spRow.id now).lessonProgresses =
              (lessonProgressCreate db userId lessonId watchTime lastPosition completed now
                spRow.id).lessonProgresses := hPlp
          rw [htouch, hProk,
            lessonsOfCourse_congr _ _ lesson.courseId hl2,
            completedLessonCount_congr _ _ userId lesson.courseId hl2 hp2]

/-- Success inversion for markLessonComplete: afterwards the stored
completion rate of the lesson's course equals completed / total * 100
recomputed over the final state. -/
theorem markLessonComplete_ok_rate (db : DB) (userId lessonId : Nat) (watchTime : Int)
    (now : Int) (lesson : Lesson) (db2 : DB)
    (hl : findLesson db lessonId = some lesson)
    (h : markLessonComplete db userId lessonId watchTime now = (.ok (), db2)) :
    storedCompletionRate db2 userId lesson.courseId =
      some (completionRateFor (lessonsOfCourse db2 lesson.courseId).length
        (completedLessonCount db2 userId lesson.courseId)) := by
  unfold markLessonComplete at h
  simp only [hl] at h
  cases hen : findEnrollment db userId lesson.courseId with
  | none =>
    simp only [hen] at h
    exact (Except.noConfusion (congrArg Prod.fst h))
  | some enr =>
    simp only [hen] at h
    split_ifs at h
    · exact (Except.noConfusion (congrArg Prod.fst h))
    · cases hlp : findLessonProgress db userId lessonId with
      | some lpRow =>
        simp only [hlp] at h
        cases hup : updateCourseProgress (markCompleteUpdate db userId lessonId watchTime now)
            userId lesson.courseId now with
        | error e =>
          simp only [hup] at h
          exact (Except.noConfusion (congrArg Prod.fst h))
        | ok dbP =>
          simp only [hup, Prod.mk.injEq] at h
          obtain ⟨-, hdb2⟩ := h
          subst hdb2
          obtain ⟨hPl, hPlp, hProk⟩ := updateCourseProgress_ok _ _ _ _ _ hup
          rw [hProk,
            lessonsOfCourse_congr _ _ lesson.courseId hPl,
            completedLessonCount_congr _ _ userId lesson.courseId hPl hPlp]
      | none =>
        simp only [hlp] at h
        cases hsp : findStudentProgress db userId lesson.courseId with
        | none =>
          simp only [hsp] at h
          exact (Except.noConfusion (congrArg Prod.fst h))
        | some spRow =>
          simp only [hsp] at h
          cases hup : updateCourseProgress
              (markCompleteCreate db userId lessonId watchTime now spRow.id)
              userId lesson.courseId now with
          | error e =>
            simp only [hup] at h
            exact (Except.noConfusion (congrArg Prod.fst h))
          | ok dbP =>
            simp only [hup, Prod.mk.injEq] at h
            obtain ⟨-, hdb2⟩ := h
            subst hdb2
            obtain ⟨hPl, hPlp, hProk⟩ := updateCourseProgress_ok _ _ _ _ _ hup
            rw [hProk,
              lessonsOfCourse_congr _ _ lesson.courseId hPl,
              completedLessonCount_congr _ _ userId lesson.courseId hPl hPlp]

/-- C5: after a successful updateLessonProgress or markLessonComplete
call, the stored completionRate for the (user, course) pair equals
completed-lesson-count / total-lesson-count * 100 over the stored state,
and equals 0 when the course has no lessons. -/
theorem c5_completion_rate (db dbM : DB) (userId userIdM lessonId lessonIdM : Nat)
    (watchTime lastPosition watchTimeM : Int) (completed : Option Bool)
    (now nowM : Int) (lesson lessonM : Lesson) (db2 dbM2 : DB)
    (hl : findLesson db lessonId = some lesson)
    (h : updateLessonProgress db userId lessonId watchTime lastPosition completed now
      = (.ok (), db2))
    (hlM : findLesson dbM lessonIdM = some lessonM)
    (hM : markLessonComplete dbM userIdM lessonIdM watchTimeM nowM = (.ok (), dbM2)) :
    (storedCompletionRate db2 userId lesson.courseId =
      some (completionRateFor (lessonsOfCourse db2 lesson.courseId).length
        (completedLessonCount db2 userId lesson.courseId))) ∧
    ((lessonsOfCourse db2 lesson.courseId).length = 0 →
      storedCompletionRate db2 userId lesson.courseId = some 0) ∧
    (storedCompletionRate dbM2 userIdM lessonM.courseId =
      some (completionRateFor (lessonsOfCourse dbM2 lessonM.courseId).length
        (completedLessonCount dbM2 userIdM lessonM.courseId))) ∧
    ((lessonsOfCourse dbM2 lessonM.courseId).length = 0 →
      storedCompletionRate dbM2 userIdM lessonM.courseId = some 0) := by
  have h1 := updateLessonProgress_ok_rate db userId lessonId watchTime lastPosition
    completed now lesson db2 hl h
  have h2 := markLessonComplete_ok_rate dbM userIdM lessonIdM watchTimeM nowM
    lessonM dbM2 hlM hM
  refine ⟨h1, ?_, h2, ?_⟩
  · intro hzero
    rw [h1, hzero]
    simp [completionRateFor]
  · intro hzero
    rw [h2, hzero]
    simp [completionRateFor]

/-- The C5 witness state: one published course with one lesson, one
enrolled student with an initial StudentProgress row. -/
def courseC5 : Course :=
  { id := 1, title := "Course", slug := "course", description := "d", price := 10,
    isFree := false, published := true, featured := false, thumbnail := some "t",
    categoryId := 3, creatorId := 1 }

def lessonC5 : Lesson :=
  { id := 2, courseId := 1, order := 1, videoUrl := some "v", isRequired := true }

def enrC5 : Enrollment :=
  { userId := 7, courseId := 1, appliedCouponId := none, status := .ACTIVE,
    progress := 0, completedAt := none }

def spC5 : StudentProgress :=
  { id := 50, userId := 7, courseId := 1, totalWatchTime := 0, completionRate := 0,
    lastAccessedAt := none }

def dbC5 : DB :=
  { emptyDB with courses := [courseC5], lessons := [lessonC5], enrollments := [enrC5],
                 studentProgresses := [spC5] }

theorem c5_completion_rate_witness :
    (storedCompletionRate (updateLessonProgress dbC5 7 2 10 5 (some true) 0).2 7
        lessonC5.courseId =
      some (completionRateFor
        (lessonsOfCourse (updateLessonProgress dbC5 7 2 10 5 (some true) 0).2
          lessonC5.courseId).length
        (completedLessonCount (updateLessonProgress dbC5 7 2 10 5 (some true) 0).2 7
          lessonC5.courseId))) ∧
    ((lessonsOfCourse (updateLessonProgress dbC5 7 2 10 5 (some true) 0).2
        lessonC5.courseId).length = 0 →
      storedCompletionRate (updateLessonProgress dbC5 7 2 10 5 (some true) 0).2 7
        lessonC5.courseId = some 0) ∧
    (storedCompletionRate (markLessonComplete dbC5 7 2 10 0).2 7 lessonC5.courseId =
      some (completionRateFor
        (lessonsOfCourse (markLessonComplete dbC5 7 2 10 0).2 lessonC5.courseId).length
        (completedLessonCount (markLessonComplete dbC5 7 2 10 0).2 7 lessonC5.courseId))) ∧
    ((lessonsOfCourse (markLessonComplete dbC5 7 2 10 0).2 lessonC5.courseId).length = 0 →
      storedCompletionRate (markLessonComplete dbC5 7 2 10 0).2 7 lessonC5.courseId
        = some 0) := by
  have hu1 : (updateLessonProgress dbC5 7 2 10 5 (some true) 0).1 = .ok () := rfl
  have hm1 : (markLessonComplete dbC5 7 2 10 0).1 = .ok () := rfl
  have hu : updateLessonProgress dbC5 7 2 10 5 (some true) 0 =
      (.ok (), (updateLessonProgress dbC5 7 2 10 5 (some true) 0).2) := by
    rw [← hu1]
  have hm : markLessonComplete dbC5 7 2 10 0 =
      (.ok (), (markLessonComplete dbC5 7 2 10 0).2) := by
    rw [← hm1]
  exact c5_completion_rate dbC5 dbC5 7 7 2 2 10 5 10 (some true) 0 0 lessonC5 lessonC5
    (updateLessonProgress dbC5 7 2 10 5 (some true) 0).2 (markLessonComplete dbC5 7 2 10 0).2
    (by decide) hu (by decide) hm

end Sport
